import Mathlib

/-!
Verification development for the cloud-resource-operator reconciliation engine.

Shallow embedding of:
- `pkg/providers/aws/config.go` (strategy-configuration resolver),
- `pkg/providers/aws/provider_postgressnapshot.go` (snapshot provider),
- `pkg/controller/blobstorage/blobstorage_controller.go` (reconcile loop).

External effects (Kubernetes client calls, AWS RDS calls) are represented by
explicit oracle fields / threaded world state; each embedded function mirrors
the control flow and the literal status messages of the Go source.
-/

namespace CloudResourceOperator

/-- Status phases from `pkg/apis/integreatly/v1alpha1/types`
(PhasePending, PhaseInProgress, PhaseComplete, PhaseFailed,
PhaseDeleteInProgress, PhaseDeleted). -/
inductive Phase
  | pending
  | inProgress
  | complete
  | failed
  | deleteInProgress
  | deleted
deriving DecidableEq, Repr

/-! ## Strategy configuration resolver (`pkg/providers/aws/config.go`) -/

/-- `StrategyConfig` from config.go: region plus the raw provider strategy blob. -/
structure StrategyConfig where
  region : String
  rawStrategy : String
deriving DecidableEq, Repr

/-- Modelled from the spec: the resource-kind keys live in `pkg/providers`
(not under src/); only their values as distinct strings are used.
`providers.BlobStorageResourceType`. -/
def blobStorageResourceType : String := "blobstorage"

/-- Modelled from the spec: `providers.SMTPCredentialResourceType`
(from `pkg/providers`, not under src/), distinct from the blob-storage key. -/
def smtpCredentialResourceType : String := "smtpcredentialset"

/-- Modelled from the spec: `providers.PostgresResourceType`
(from `pkg/providers`, not under src/), distinct from the other keys. -/
def postgresResourceType : String := "postgres"

/-- One value of the config map `Data` field: the raw string either fails to
unmarshal or yields a tier-to-StrategyConfig mapping (association list).
An absent key and the empty string are both represented by an absent entry,
matching the `rawStrategyMapping == ""` test in config.go. -/
inductive RawMapping
  | malformed
  | mapping (m : List (String × StrategyConfig))
deriving Repr

/-- Result of `getTierStrategyForProvider`: either a Go error, or a possibly-nil
`*StrategyConfig` pointer (the nil pointer is `.ok none`). -/
inductive TierStrategyResult
  | err (msg : String)
  | ok (cfg : Option StrategyConfig)
deriving DecidableEq, Repr

/-- Association-list lookup standing for the Go map read `cm.Data[key]`. -/
def lookupData (data : List (String × RawMapping)) (key : String) : Option RawMapping :=
  (data.find? (fun kv => kv.1 == key)).map (fun kv => kv.2)

/-- `getTierStrategyForProvider` (config.go lines 93-108).  `cmFetch` is the
outcome of the client `Get` of the config map (`none` = Get error).
Note the source reads `cm.Data[string(providers.BlobStorageResourceType)]`
(line 99): the `resourceType` parameter is accepted but never used for the
lookup. -/
def getTierStrategyForProvider (cmFetch : Option (List (String × RawMapping)))
    (resourceType tier : String) : TierStrategyResult :=
  match cmFetch with
  | none => .err "failed to get aws strategy config map"
  | some data =>
    match lookupData data blobStorageResourceType with
    | none =>
      .err ("aws strategy for resource type " ++ blobStorageResourceType ++ " is not defined")
    | some .malformed =>
      .err ("failed to unmarshal strategy mapping for resource type " ++ blobStorageResourceType)
    | some (.mapping m) =>
      .ok ((m.find? (fun kv => kv.1 == tier)).map (fun kv => kv.2))

/-- `ReadBlobStorageStrategy` (config.go lines 69-75): delegates to
`getTierStrategyForProvider` with the blob-storage resource type, wrapping
errors. -/
def ReadBlobStorageStrategy (cmFetch : Option (List (String × RawMapping)))
    (tier : String) : TierStrategyResult :=
  match getTierStrategyForProvider cmFetch blobStorageResourceType tier with
  | .err m =>
    .err ("failed to get tier to strategy mapping for resource type "
      ++ blobStorageResourceType ++ ": " ++ m)
  | .ok cfg => .ok cfg

/-- `ReadSMTPCredentialSetStrategy` (config.go lines 77-83): delegates to
`getTierStrategyForProvider` with the SMTP-credential resource type (the
error wrap in the source names the blob-storage type, a literal copy of
line 72). -/
def ReadSMTPCredentialSetStrategy (cmFetch : Option (List (String × RawMapping)))
    (tier : String) : TierStrategyResult :=
  match getTierStrategyForProvider cmFetch smtpCredentialResourceType tier with
  | .err m =>
    .err ("failed to get tier to strategy mapping for resource type "
      ++ blobStorageResourceType ++ ": " ++ m)
  | .ok cfg => .ok cfg

/-- `DefaultRegion` from config.go. -/
def defaultRegion : String := "eu-west-1"

/-- Outcome of `getAwsSession`: a session built for a region, a returned Go
error, or a nil-pointer dereference (runtime panic). -/
inductive SessionResult
  | ok (region : String)
  | err (msg : String)
  | nilDeref
deriving DecidableEq, Repr

/-- Modelled from the spec: `ConfigManager.ReadStorageStrategy` (the postgres
variant called at provider_postgressnapshot.go line 219) is not under src/;
per the spec it reads the `(resourceKind, tier)` strategy through the same
shared configuration record, so it is modelled by `getTierStrategyForProvider`
exactly as the two Read*Strategy wrappers in config.go are. -/
def ReadStorageStrategy (cmFetch : Option (List (String × RawMapping)))
    (resourceType tier : String) : TierStrategyResult :=
  getTierStrategyForProvider cmFetch resourceType tier

/-- `getAwsSession` (provider_postgressnapshot.go lines 217-244).
`credsOk` is the outcome of `ReconcileProviderCredentials`.
`GetRegionFromStrategyOrDefault` is not under src/ and is modelled from the
spec as supplying the deployment-wide default region (a non-error
substitution).  The source then evaluates `stratCfg.Region == ""` (line 229):
when the resolver returned a nil `*StrategyConfig` with a nil error, that
read dereferences the nil pointer, which is the `.nilDeref` outcome. -/
def getAwsSession (cmFetch : Option (List (String × RawMapping)))
    (pgTier : String) (credsOk : Bool) : SessionResult :=
  match ReadStorageStrategy cmFetch postgresResourceType pgTier with
  | .err m => .err m
  | .ok none => .nilDeref
  | .ok (some cfg) =>
    let region := if cfg.region == "" then defaultRegion else cfg.region
    if credsOk then .ok region else .err "failed to reconcile aws credentials"

/-! ## Snapshot lookup (`findSnapshotInstance`) -/

/-- An RDS `DBSnapshot` as used by the source: identifier and status string. -/
structure DBSnapshot where
  dbSnapshotIdentifier : String
  status : String
deriving DecidableEq, Repr

/-- Errors returned by the AWS SDK: either an `awserr.Error` carrying a code,
or a plain error (the type assertion `err.(awserr.Error)` fails). -/
inductive AwsError
  | awsErr (code : String) (msg : String)
  | plainErr (msg : String)
deriving DecidableEq, Repr

/-- `findSnapshotInstance` (provider_postgressnapshot.go lines 195-215) as a
function of the `DescribeDBSnapshots` outcome: a describe error with AWS code
`DBSnapshotNotFound` becomes success-with-absent, any other error is
propagated, and otherwise the first listed snapshot whose identifier equals
the requested name is returned. -/
def findSnapshotInstance (describeResult : Except AwsError (List DBSnapshot))
    (snapshotName : String) : Except AwsError (Option DBSnapshot) :=
  match describeResult with
  | .error e =>
    match e with
    | .awsErr code msg =>
      if code == "DBSnapshotNotFound" then .ok none else .error (.awsErr code msg)
    | .plainErr msg => .error (.plainErr msg)
  | .ok snaps => .ok (snaps.find? (fun c => c.dbSnapshotIdentifier == snapshotName))

/-! ## Theorems for claims C5, C6, C10 -/

/-- Claim C10: the snapshot lookup is total over describe outcomes: a
`DBSnapshotNotFound` AWS error is success-with-absent, every other describe
error (other AWS codes and non-AWS errors alike) is propagated unchanged, and
a snapshot is returned only when its external identifier equals the requested
name exactly. -/
theorem findSnapshotInstance_total (nm code msg : String)
    (snaps : List DBSnapshot) (s : DBSnapshot) :
    (findSnapshotInstance (.error (.awsErr "DBSnapshotNotFound" msg)) nm = .ok none) ∧
    (code ≠ "DBSnapshotNotFound" →
      findSnapshotInstance (.error (.awsErr code msg)) nm = .error (.awsErr code msg)) ∧
    (findSnapshotInstance (.error (.plainErr msg)) nm = .error (.plainErr msg)) ∧
    (findSnapshotInstance (.ok snaps) nm = .ok (some s) → s.dbSnapshotIdentifier = nm) := by
  refine ⟨rfl, ?_, rfl, ?_⟩
  · intro h
    simp [findSnapshotInstance, h]
  · intro h
    simp only [findSnapshotInstance, Except.ok.injEq] at h
    have hmem := List.find?_some h
    exact eq_of_beq hmem

/-- Witness for C10 at concrete inputs: a non-matching AWS error code is
propagated, and a found snapshot's identifier equals the requested name. -/
theorem findSnapshotInstance_total_witness :
    (findSnapshotInstance (.error (.awsErr "AccessDenied" "m")) "a"
        = .error (.awsErr "AccessDenied" "m")) ∧
    (DBSnapshot.mk "a" "available").dbSnapshotIdentifier = "a" := by
  refine ⟨?_, ?_⟩
  · exact (findSnapshotInstance_total "a" "AccessDenied" "m" [] ⟨"a", "available"⟩).2.1
      (by decide)
  · exact (findSnapshotInstance_total "a" "AccessDenied" "m"
      [⟨"a", "available"⟩] ⟨"a", "available"⟩).2.2.2 rfl

/-- Claim C5 (code bug): `getTierStrategyForProvider` ignores its
`resourceType` argument and always reads the blob-storage key of the config
map (config.go line 99).  Evaluated at the failing input: a config map whose
data holds the SMTP-credential mapping (with the requested tier) under the
SMTP key and nothing under the blob-storage key, `ReadSMTPCredentialSetStrategy`
returns a not-defined error instead of the SMTP tier entry; and with a mapping
stored only under the blob-storage key, the SMTP read returns the blob-storage
entry. -/
theorem readSMTPStrategy_ignores_resource_kind :
    (ReadSMTPCredentialSetStrategy
        (some [(smtpCredentialResourceType,
          RawMapping.mapping [("production", ⟨"eu-west-1", "raw-smtp"⟩)])])
        "production"
      = .err ("failed to get tier to strategy mapping for resource type blobstorage: "
          ++ "aws strategy for resource type blobstorage is not defined")) ∧
    (ReadSMTPCredentialSetStrategy
        (some [(blobStorageResourceType,
          RawMapping.mapping [("production", ⟨"eu-west-1", "raw-blob"⟩)])])
        "production"
      = .ok (some ⟨"eu-west-1", "raw-blob"⟩)) := by
  exact ⟨rfl, rfl⟩

/-- Claim C6 (code bug): with the shared configuration record present and the
consulted strategy mapping present but lacking the requested tier, the
resolver indeed returns a nil config with a nil error (the Pending-style
result, distinguished from an error), but the caller `getAwsSession` then
dereferences the nil `*StrategyConfig` at provider_postgressnapshot.go
line 229 instead of treating it as a not-yet-ready state. -/
theorem getAwsSession_nil_deref_on_missing_tier :
    (getTierStrategyForProvider
        (some [(blobStorageResourceType,
          RawMapping.mapping [("development", ⟨"eu-west-1", "raw"⟩)])])
        postgresResourceType "production"
      = .ok none) ∧
    (getAwsSession
        (some [(blobStorageResourceType,
          RawMapping.mapping [("development", ⟨"eu-west-1", "raw"⟩)])])
        "production" true
      = .nilDeref) := by
  exact ⟨rfl, rfl⟩

/-! ## Snapshot provider create/delete (`provider_postgressnapshot.go`) -/

/-- Kubernetes object metadata as used by the snapshot provider; per the spec
design notes the finalizer list is modelled as a boolean marker. -/
structure ObjectMeta where
  name : String
  ns : String
  creationTimestamp : Nat
  hasFinalizer : Bool
deriving DecidableEq, Repr

/-- A `PostgresSnapshot` custom resource: metadata, status phase and the
persisted `Status.SnapshotID`. -/
structure PostgresSnapshot where
  meta : ObjectMeta
  phase : Phase
  snapshotID : String
deriving DecidableEq, Repr

/-- A `Postgres` custom resource (the primary resource a snapshot refers to). -/
structure Postgres where
  meta : ObjectMeta
  tier : String
  phase : Phase
deriving DecidableEq, Repr

/-- The external RDS world threaded through provider calls: the existing
snapshots plus injectable call faults (a `some` fault makes the corresponding
RDS call return that error). -/
structure RdsWorld where
  snapshots : List DBSnapshot
  describeErr : Option AwsError
  createErr : Option AwsError
  deleteErr : Option AwsError
deriving DecidableEq, Repr

/-- `DescribeDBSnapshots` against the world.  The AWS-side identifier filter
is subsumed by the exact-match loop in `findSnapshotInstance`, so the model
returns the full snapshot list on success. -/
def describeDBSnapshots (w : RdsWorld) : Except AwsError (List DBSnapshot) :=
  match w.describeErr with
  | some e => .error e
  | none => .ok w.snapshots

/-- Modelled from the spec: `resources.BuildTimestampedInfraNameFromObjectCreation`
(from `pkg/resources`, not under src/) derives a deterministic,
timestamp-derived external name from the object metadata. -/
def buildTimestampedInfraNameFromObjectCreation (meta : ObjectMeta) : String :=
  meta.ns ++ "-" ++ meta.name ++ "-" ++ toString meta.creationTimestamp

/-- Modelled from the spec: `resources.BuildInfraNameFromObject`
(from `pkg/resources`, not under src/) derives a deterministic name from the
object metadata. -/
def buildInfraNameFromObject (meta : ObjectMeta) : String :=
  meta.ns ++ "-" ++ meta.name

/-- Modelled from the spec: `resources.RemoveFinalizer` (from `pkg/resources`,
not under src/) removes the finalizer marker from the object metadata. -/
def removeFinalizer (meta : ObjectMeta) : ObjectMeta :=
  { meta with hasFinalizer := false }

/-- Result of one `createPostgresSnapshot` call: the returned
`(*PostgresSnapshotInstance, StatusMessage, error)` triple, the persisted
snapshot CR, the RDS world after the call, and how many describe/create RDS
calls were issued. -/
structure SnapshotCreateOut where
  handle : Option String
  message : String
  isError : Bool
  snapshot : PostgresSnapshot
  world : RdsWorld
  describeCalls : Nat
  createCalls : Nat
deriving DecidableEq, Repr

/-- `createPostgresSnapshot` (provider_postgressnapshot.go lines 91-157).
`updateOk` is the outcome of the `Status().Update` persisting the snapshot
name.  The wrapper `CreatePostgresSnapshot` attaches the finalizer before
calling this; the deterministic-name builders are modelled as pure (their Go
error paths stem from client calls not under src/). -/
def createPostgresSnapshot (snap : PostgresSnapshot) (pg : Postgres)
    (w : RdsWorld) (updateOk : Bool) : SnapshotCreateOut :=
  let snapshotName := buildTimestampedInfraNameFromObjectCreation snap.meta
  let snap1 := { snap with snapshotID := snapshotName }
  if updateOk then
    match findSnapshotInstance (describeDBSnapshots w) snapshotName with
    | .error _ =>
      { handle := none, message := "failed to describe snaphots in AWS", isError := true,
        snapshot := snap1, world := w, describeCalls := 1, createCalls := 0 }
    | .ok none =>
      if pg.phase = Phase.inProgress then
        { handle := none, message := "waiting for postgres instance to be available",
          isError := false, snapshot := snap1, world := w, describeCalls := 1, createCalls := 0 }
      else if pg.phase = Phase.deleteInProgress then
        { handle := none, message := "cannot create snapshot when instance deletion is in progress",
          isError := true, snapshot := snap1, world := w, describeCalls := 1, createCalls := 0 }
      else
        match w.createErr with
        | some _ =>
          { handle := none, message := "error creating rds snapshot", isError := true,
            snapshot := snap1, world := w, describeCalls := 1, createCalls := 1 }
        | none =>
          { handle := none, message := "snapshot started", isError := false,
            snapshot := snap1,
            world := { w with snapshots :=
              w.snapshots ++ [{ dbSnapshotIdentifier := snapshotName, status := "creating" }] },
            describeCalls := 1, createCalls := 1 }
    | .ok (some found) =>
      if found.status == "available" then
        { handle := some found.dbSnapshotIdentifier, message := "snapshot created",
          isError := false, snapshot := snap1, world := w, describeCalls := 1, createCalls := 0 }
      else
        { handle := none, message := "current snapshot status : " ++ found.status,
          isError := false, snapshot := snap1, world := w, describeCalls := 1, createCalls := 0 }
  else
    { handle := none,
      message := "failed to update instance " ++ snap.meta.name
        ++ " in namespace " ++ snap.meta.ns,
      isError := true, snapshot := snap, world := w, describeCalls := 0, createCalls := 0 }

/-- Result of one `deletePostgresSnapshot` call: the returned status message
and error, the persisted snapshot CR, the world and the number of RDS delete
calls. -/
structure SnapshotDeleteOut where
  message : String
  isError : Bool
  persisted : PostgresSnapshot
  world : RdsWorld
  deleteCalls : Nat
deriving DecidableEq, Repr

/-- `deletePostgresSnapshot` (provider_postgressnapshot.go lines 159-193).
`updateOk` is the outcome of the client `Update` that persists the finalizer
removal; when it fails the persisted record keeps the finalizer.  An RDS
delete that succeeds merely initiates an asynchronous deletion, so the world
is unchanged. -/
def deletePostgresSnapshot (snap : PostgresSnapshot)
    (w : RdsWorld) (updateOk : Bool) : SnapshotDeleteOut :=
  let snapshotName := snap.snapshotID
  match findSnapshotInstance (describeDBSnapshots w) snapshotName with
  | .error _ =>
    { message := "failed to describe snaphots in AWS", isError := true,
      persisted := snap, world := w, deleteCalls := 0 }
  | .ok none =>
    if updateOk then
      { message := "snapshot deleted", isError := false,
        persisted := { snap with meta := removeFinalizer snap.meta },
        world := w, deleteCalls := 0 }
    else
      { message := "failed to update instance as part of finalizer reconcile",
        isError := true, persisted := snap, world := w, deleteCalls := 0 }
  | .ok (some _found) =>
    match w.deleteErr with
    | some _ =>
      { message := "failed to delete snapshot " ++ snapshotName ++ " in aws",
        isError := true, persisted := snap, world := w, deleteCalls := 1 }
    | none =>
      { message := "snapshot deletion started", isError := false,
        persisted := snap, world := w, deleteCalls := 1 }

/-! ## Theorems for claims C1, C7, C8 -/

/-- Claim C1: for every snapshot deletion invocation starting with the
finalizer attached, the persisted record has the finalizer removed exactly
when the external lookup confirmed the snapshot absent and the record update
succeeded; on every other path (lookup error, external delete error, deletion
merely initiated, failed record update) the finalizer remains, so finalizer
absent after deletion implies the external snapshot no longer exists. -/
theorem deletePostgresSnapshot_finalizer_only_on_absent
    (snap : PostgresSnapshot) (w : RdsWorld) (updateOk : Bool)
    (h : snap.meta.hasFinalizer = true) :
    (deletePostgresSnapshot snap w updateOk).persisted.meta.hasFinalizer = false ↔
      (findSnapshotInstance (describeDBSnapshots w) snap.snapshotID = .ok none ∧
        updateOk = true) := by
  unfold deletePostgresSnapshot
  cases hf : findSnapshotInstance (describeDBSnapshots w) snap.snapshotID with
  | error e => simp [h, hf]
  | ok o =>
    cases o with
    | none =>
      cases updateOk with
      | false => simp [h, hf]
      | true => simp [hf, removeFinalizer]
    | some s =>
      cases w.deleteErr with
      | none => simp [h, hf]
      | some e => simp [h, hf]

/-- Witness for C1: deleting a snapshot that is still present externally,
with the finalizer attached, keeps the finalizer. -/
theorem deletePostgresSnapshot_finalizer_witness :
    (PostgresSnapshot.mk ⟨"s", "n", 3, true⟩ Phase.deleteInProgress "n-s-3").meta.hasFinalizer
      = true ∧
    ((deletePostgresSnapshot
        (PostgresSnapshot.mk ⟨"s", "n", 3, true⟩ Phase.deleteInProgress "n-s-3")
        (RdsWorld.mk [⟨"n-s-3", "available"⟩] none none none)
        true).persisted.meta.hasFinalizer = false ↔
      (findSnapshotInstance
          (describeDBSnapshots (RdsWorld.mk [⟨"n-s-3", "available"⟩] none none none))
          (PostgresSnapshot.mk ⟨"s", "n", 3, true⟩ Phase.deleteInProgress "n-s-3").snapshotID
        = .ok none ∧ true = true)) :=
  ⟨rfl, deletePostgresSnapshot_finalizer_only_on_absent
    (PostgresSnapshot.mk ⟨"s", "n", 3, true⟩ Phase.deleteInProgress "n-s-3")
    (RdsWorld.mk [⟨"n-s-3", "available"⟩] none none none) true rfl⟩

/-- If a predicate finds nothing in `l` and holds of `a`, searching `l ++ [a]`
finds exactly `a`. -/
theorem find?_append_singleton_of_none {α : Type} (f : α → Bool) (l : List α) (a : α)
    (ha : f a = true) (h : l.find? f = none) :
    (l ++ [a]).find? f = some a := by
  rw [List.find?_append, h]
  simp [List.find?_cons_of_pos _ ha]

/-- A describe fault that persistently reports `DBSnapshotNotFound` would
contradict the external snapshot state; this side condition excludes it
(it holds in particular whenever describe is healthy or fails with any other
error). -/
def describeNotStuckNotFound (w : RdsWorld) : Bool :=
  match w.describeErr with
  | some (.awsErr code _) => code != "DBSnapshotNotFound"
  | _ => true

/-- Claim C7: invoking the snapshot create twice in a row with no intervening
external state change issues at most one external `CreateDBSnapshot`; each
call re-derives the same deterministic snapshot name and looks it up first,
and when the first call created the snapshot, the second call observes it and
reports its progress (status `creating`) without creating a duplicate. -/
theorem createPostgresSnapshot_idempotent
    (snap : PostgresSnapshot) (pg : Postgres) (w : RdsWorld)
    (hc : w.createErr = none) (hdnf : describeNotStuckNotFound w = true) :
    ((createPostgresSnapshot snap pg w true).createCalls +
        (createPostgresSnapshot (createPostgresSnapshot snap pg w true).snapshot pg
          (createPostgresSnapshot snap pg w true).world true).createCalls ≤ 1) ∧
    ((createPostgresSnapshot snap pg w true).createCalls = 1 →
      ((createPostgresSnapshot (createPostgresSnapshot snap pg w true).snapshot pg
          (createPostgresSnapshot snap pg w true).world true).createCalls = 0 ∧
        (createPostgresSnapshot (createPostgresSnapshot snap pg w true).snapshot pg
          (createPostgresSnapshot snap pg w true).world true).isError = false ∧
        (createPostgresSnapshot (createPostgresSnapshot snap pg w true).snapshot pg
          (createPostgresSnapshot snap pg w true).world true).message
          = "current snapshot status : creating")) := by
  cases hd : w.describeErr with
  | some e =>
    cases e with
    | awsErr code msg =>
      have hcode : (code == "DBSnapshotNotFound") = false := by
        unfold describeNotStuckNotFound at hdnf
        rw [hd] at hdnf
        simpa [bne] using hdnf
      simp [createPostgresSnapshot, describeDBSnapshots, findSnapshotInstance, hd, hcode]
    | plainErr msg =>
      simp [createPostgresSnapshot, describeDBSnapshots, findSnapshotInstance, hd]
  | none =>
    cases hf : w.snapshots.find?
        (fun c => c.dbSnapshotIdentifier
          == buildTimestampedInfraNameFromObjectCreation snap.meta) with
    | some found =>
      cases hav : found.status == "available" with
      | true =>
        simp [createPostgresSnapshot, describeDBSnapshots, findSnapshotInstance, hd, hf, hav]
      | false =>
        simp [createPostgresSnapshot, describeDBSnapshots, findSnapshotInstance, hd, hf, hav]
    | none =>
      by_cases hp1 : pg.phase = Phase.inProgress
      · simp [createPostgresSnapshot, describeDBSnapshots, findSnapshotInstance, hd, hf, hp1]
      · by_cases hp2 : pg.phase = Phase.deleteInProgress
        · simp [createPostgresSnapshot, describeDBSnapshots, findSnapshotInstance,
            hd, hf, hp1, hp2]
        · have hfind2 : ((w.snapshots ++
              [(⟨buildTimestampedInfraNameFromObjectCreation snap.meta,
                 "creating"⟩ : DBSnapshot)]).find?
              (fun c => c.dbSnapshotIdentifier
                == buildTimestampedInfraNameFromObjectCreation snap.meta))
              = some (⟨buildTimestampedInfraNameFromObjectCreation snap.meta,
                  "creating"⟩ : DBSnapshot) := by
            apply find?_append_singleton_of_none _ _ _ _ hf
            simp
          simp [createPostgresSnapshot, describeDBSnapshots, findSnapshotInstance,
            hd, hf, hp1, hp2, hc, hfind2]

/-- Witness for C7: a fresh snapshot request against an empty external world
with a healthy describe endpoint. -/
theorem createPostgresSnapshot_idempotent_witness :
    (RdsWorld.mk [] none none none).createErr = none ∧
    describeNotStuckNotFound (RdsWorld.mk [] none none none) = true ∧
    ((createPostgresSnapshot (PostgresSnapshot.mk ⟨"s", "n", 3, true⟩ Phase.pending "")
        (Postgres.mk ⟨"p", "n", 1, false⟩ "production" Phase.complete)
        (RdsWorld.mk [] none none none) true).createCalls +
      (createPostgresSnapshot
        (createPostgresSnapshot (PostgresSnapshot.mk ⟨"s", "n", 3, true⟩ Phase.pending "")
          (Postgres.mk ⟨"p", "n", 1, false⟩ "production" Phase.complete)
          (RdsWorld.mk [] none none none) true).snapshot
        (Postgres.mk ⟨"p", "n", 1, false⟩ "production" Phase.complete)
        (createPostgresSnapshot (PostgresSnapshot.mk ⟨"s", "n", 3, true⟩ Phase.pending "")
          (Postgres.mk ⟨"p", "n", 1, false⟩ "production" Phase.complete)
          (RdsWorld.mk [] none none none) true).world true).createCalls ≤ 1) ∧
    ((createPostgresSnapshot (PostgresSnapshot.mk ⟨"s", "n", 3, true⟩ Phase.pending "")
        (Postgres.mk ⟨"p", "n", 1, false⟩ "production" Phase.complete)
        (RdsWorld.mk [] none none none) true).createCalls = 1 →
      ((createPostgresSnapshot
          (createPostgresSnapshot (PostgresSnapshot.mk ⟨"s", "n", 3, true⟩ Phase.pending "")
            (Postgres.mk ⟨"p", "n", 1, false⟩ "production" Phase.complete)
            (RdsWorld.mk [] none none none) true).snapshot
          (Postgres.mk ⟨"p", "n", 1, false⟩ "production" Phase.complete)
          (createPostgresSnapshot (PostgresSnapshot.mk ⟨"s", "n", 3, true⟩ Phase.pending "")
            (Postgres.mk ⟨"p", "n", 1, false⟩ "production" Phase.complete)
            (RdsWorld.mk [] none none none) true).world true).createCalls = 0 ∧
        (createPostgresSnapshot
          (createPostgresSnapshot (PostgresSnapshot.mk ⟨"s", "n", 3, true⟩ Phase.pending "")
            (Postgres.mk ⟨"p", "n", 1, false⟩ "production" Phase.complete)
            (RdsWorld.mk [] none none none) true).snapshot
          (Postgres.mk ⟨"p", "n", 1, false⟩ "production" Phase.complete)
          (createPostgresSnapshot (PostgresSnapshot.mk ⟨"s", "n", 3, true⟩ Phase.pending "")
            (Postgres.mk ⟨"p", "n", 1, false⟩ "production" Phase.complete)
            (RdsWorld.mk [] none none none) true).world true).isError = false ∧
        (createPostgresSnapshot
          (createPostgresSnapshot (PostgresSnapshot.mk ⟨"s", "n", 3, true⟩ Phase.pending "")
            (Postgres.mk ⟨"p", "n", 1, false⟩ "production" Phase.complete)
            (RdsWorld.mk [] none none none) true).snapshot
          (Postgres.mk ⟨"p", "n", 1, false⟩ "production" Phase.complete)
          (createPostgresSnapshot (PostgresSnapshot.mk ⟨"s", "n", 3, true⟩ Phase.pending "")
            (Postgres.mk ⟨"p", "n", 1, false⟩ "production" Phase.complete)
            (RdsWorld.mk [] none none none) true).world true).message
          = "current snapshot status : creating")) :=
  ⟨rfl, rfl,
    createPostgresSnapshot_idempotent
      (PostgresSnapshot.mk ⟨"s", "n", 3, true⟩ Phase.pending "")
      (Postgres.mk ⟨"p", "n", 1, false⟩ "production" Phase.complete)
      (RdsWorld.mk [] none none none) rfl rfl⟩

/-- Claim C8 (counterexample to the stated message and call count): with the
primary postgres phase `InProgress` and no external snapshot, the create
operation returns the message `waiting for postgres instance to be available`
(not `waiting for primary resource`) and issues one external describe lookup
(not zero external calls). -/
theorem createPostgresSnapshot_waiting_counterexample :
    (createPostgresSnapshot (PostgresSnapshot.mk ⟨"s", "n", 3, true⟩ Phase.pending "")
        (Postgres.mk ⟨"p", "n", 1, false⟩ "production" Phase.inProgress)
        (RdsWorld.mk [] none none none) true).message
      = "waiting for postgres instance to be available" ∧
    (createPostgresSnapshot (PostgresSnapshot.mk ⟨"s", "n", 3, true⟩ Phase.pending "")
        (Postgres.mk ⟨"p", "n", 1, false⟩ "production" Phase.inProgress)
        (RdsWorld.mk [] none none none) true).message
      ≠ "waiting for primary resource" ∧
    (createPostgresSnapshot (PostgresSnapshot.mk ⟨"s", "n", 3, true⟩ Phase.pending "")
        (Postgres.mk ⟨"p", "n", 1, false⟩ "production" Phase.inProgress)
        (RdsWorld.mk [] none none none) true).describeCalls = 1 := by
  refine ⟨rfl, ?_, rfl⟩
  decide

/-- Claim C8 as amended: when the primary postgres phase is `InProgress` and
the lookup of the derived snapshot name confirms no external snapshot exists,
the create operation returns a nil handle with the status message
`waiting for postgres instance to be available` and no error (so the snapshot
stays `InProgress`), issues no external create call and leaves the external
world unchanged; the only external interaction is the single describe
lookup. -/
theorem createPostgresSnapshot_waits_for_primary
    (snap : PostgresSnapshot) (pg : Postgres) (w : RdsWorld)
    (hp : pg.phase = Phase.inProgress)
    (hf : findSnapshotInstance (describeDBSnapshots w)
        (buildTimestampedInfraNameFromObjectCreation snap.meta) = .ok none) :
    (createPostgresSnapshot snap pg w true).handle = none ∧
    (createPostgresSnapshot snap pg w true).message
      = "waiting for postgres instance to be available" ∧
    (createPostgresSnapshot snap pg w true).isError = false ∧
    (createPostgresSnapshot snap pg w true).createCalls = 0 ∧
    (createPostgresSnapshot snap pg w true).describeCalls = 1 ∧
    (createPostgresSnapshot snap pg w true).world = w := by
  simp [createPostgresSnapshot, hf, hp]

/-- Witness for the amended C8 at a concrete input. -/
theorem createPostgresSnapshot_waits_for_primary_witness :
    (Postgres.mk ⟨"p", "n", 1, false⟩ "production" Phase.inProgress).phase
      = Phase.inProgress ∧
    findSnapshotInstance (describeDBSnapshots (RdsWorld.mk [] none none none))
      (buildTimestampedInfraNameFromObjectCreation
        (PostgresSnapshot.mk ⟨"s", "n", 3, true⟩ Phase.pending "").meta) = .ok none ∧
    ((createPostgresSnapshot (PostgresSnapshot.mk ⟨"s", "n", 3, true⟩ Phase.pending "")
          (Postgres.mk ⟨"p", "n", 1, false⟩ "production" Phase.inProgress)
          (RdsWorld.mk [] none none none) true).handle = none ∧
      (createPostgresSnapshot (PostgresSnapshot.mk ⟨"s", "n", 3, true⟩ Phase.pending "")
          (Postgres.mk ⟨"p", "n", 1, false⟩ "production" Phase.inProgress)
          (RdsWorld.mk [] none none none) true).message
        = "waiting for postgres instance to be available" ∧
      (createPostgresSnapshot (PostgresSnapshot.mk ⟨"s", "n", 3, true⟩ Phase.pending "")
          (Postgres.mk ⟨"p", "n", 1, false⟩ "production" Phase.inProgress)
          (RdsWorld.mk [] none none none) true).isError = false ∧
      (createPostgresSnapshot (PostgresSnapshot.mk ⟨"s", "n", 3, true⟩ Phase.pending "")
          (Postgres.mk ⟨"p", "n", 1, false⟩ "production" Phase.inProgress)
          (RdsWorld.mk [] none none none) true).createCalls = 0 ∧
      (createPostgresSnapshot (PostgresSnapshot.mk ⟨"s", "n", 3, true⟩ Phase.pending "")
          (Postgres.mk ⟨"p", "n", 1, false⟩ "production" Phase.inProgress)
          (RdsWorld.mk [] none none none) true).describeCalls = 1 ∧
      (createPostgresSnapshot (PostgresSnapshot.mk ⟨"s", "n", 3, true⟩ Phase.pending "")
          (Postgres.mk ⟨"p", "n", 1, false⟩ "production" Phase.inProgress)
          (RdsWorld.mk [] none none none) true).world
        = RdsWorld.mk [] none none none) :=
  ⟨rfl, rfl,
    createPostgresSnapshot_waits_for_primary
      (PostgresSnapshot.mk ⟨"s", "n", 3, true⟩ Phase.pending "")
      (Postgres.mk ⟨"p", "n", 1, false⟩ "production" Phase.inProgress)
      (RdsWorld.mk [] none none none) rfl rfl⟩

/-! ## BlobStorage controller (`blobstorage_controller.go`) -/

/-- A `SecretRef`: reference to the output secret. -/
structure SecretRef where
  name : String
  ns : String
deriving DecidableEq, Repr

/-- The zero-value `&v1alpha1.SecretRef` assigned on create failure
(blobstorage_controller.go lines 132 and 140). -/
def emptySecretRef : SecretRef := { name := "", ns := "" }

/-- The engine-owned status of a `BlobStorage` resource. -/
structure BlobStorageStatus where
  phase : Phase
  message : String
  secretRef : Option SecretRef
  strategy : String
  provider : String
deriving DecidableEq, Repr

/-- A `BlobStorage` custom resource: spec fields plus status. -/
structure BlobStorage where
  name : String
  ns : String
  deletionTimestamp : Option Nat
  specType : String
  specSecretRef : SecretRef
  status : BlobStorageStatus
deriving DecidableEq, Repr

/-- The resolved strategy mapping returned by
`GetStrategyMappingForDeploymentType`; the controller uses its `BlobStorage`
field. -/
structure StrategyMapping where
  blobStorage : String
deriving DecidableEq, Repr

/-- Connection data returned by a successful `CreateStorage`
(`bsi.DeploymentDetails.Data()`). -/
structure BlobStorageInstanceData where
  data : List (String × String)
deriving DecidableEq, Repr

/-- Outcome of a provider `CreateStorage` call: an error with a status
message, a nil instance with a progress message, or a ready instance. -/
inductive CreateStorageOutcome
  | err (msg : String)
  | progress (msg : String)
  | ok (bsi : BlobStorageInstanceData) (msg : String)

/-- Outcome of a provider `DeleteStorage` call. -/
inductive DeleteStorageOutcome
  | err (msg : String)
  | ok (msg : String)

/-- A registered blob-storage provider, with its call outcomes for this
reconciliation supplied as oracle fields. -/
structure BlobStorageProvider where
  name : String
  supports : String → Bool
  createOutcome : CreateStorageOutcome
  deleteOutcome : DeleteStorageOutcome

/-- External calls issued during one reconciliation. -/
inductive REvent
  | stratRead
  | deleteCalled (provider : String)
  | createCalled (provider : String)
  | secretWritten (provider : String)
deriving DecidableEq, Repr

/-- Outcome of fetching the `BlobStorage` instance at the start of
`Reconcile`. -/
inductive FetchOutcome
  | notFound
  | getErr
  | found (b : BlobStorage)

/-- Oracle for one `Reconcile` invocation: the instance fetch, the strategy
read (`none` = error), the registered provider list, and the outcomes of the
secret write and of the (single) status update a path performs. -/
structure REnv where
  fetch : FetchOutcome
  strat : Option StrategyMapping
  providerList : List BlobStorageProvider
  secretWriteOk : Bool
  statusUpdateOk : Bool

/-- Result of one `Reconcile` invocation: issued calls, the persisted
instance (`none` when no instance was found), whether a Go error was
returned, and whether an explicit requeue was requested. -/
structure ROut where
  events : List REvent
  persisted : Option BlobStorage
  errored : Bool
  requeued : Bool
deriving Repr

/-- Modelled from the spec: `resources.UpdatePhase` (from `pkg/resources`,
not under src/) writes the given phase and message onto the instance status
and persists it via a status update.  `orig` is the stored record, restored
when the update fails; `inst` carries any in-memory mutations made before the
call (such as the cleared secret reference), which the status update persists
alongside the phase. -/
def updatePhase (env : REnv) (orig inst : BlobStorage) (ph : Phase) (msg : String) :
    Option BlobStorage × Bool :=
  if env.statusUpdateOk then
    (some { inst with status := { inst.status with phase := ph, message := msg } }, false)
  else
    (some orig, true)

/-- The body of the provider loop for one supporting provider
(blobstorage_controller.go lines 114-159): deletion branch when the deletion
timestamp is set, otherwise the create branch with its error / in-progress /
complete sub-branches. -/
def reconcileProvider (env : REnv) (orig : BlobStorage) (strat : StrategyMapping)
    (p : BlobStorageProvider) : ROut :=
  if orig.deletionTimestamp.isSome then
    match p.deleteOutcome with
    | .err msg =>
      let r := updatePhase env orig orig Phase.failed msg
      { events := [.deleteCalled p.name], persisted := r.1, errored := true, requeued := false }
    | .ok msg =>
      let r := updatePhase env orig orig Phase.deleteInProgress msg
      { events := [.deleteCalled p.name], persisted := r.1, errored := r.2,
        requeued := !r.2 }
  else
    match p.createOutcome with
    | .err msg =>
      let inst1 := { orig with status := { orig.status with secretRef := some emptySecretRef } }
      let r := updatePhase env orig inst1 Phase.failed msg
      { events := [.createCalled p.name], persisted := r.1, errored := true, requeued := false }
    | .progress msg =>
      let inst1 := { orig with status := { orig.status with secretRef := some emptySecretRef } }
      let r := updatePhase env orig inst1 Phase.inProgress msg
      { events := [.createCalled p.name], persisted := r.1, errored := r.2,
        requeued := !r.2 }
    | .ok _bsi msg =>
      if env.secretWriteOk then
        let inst1 := { orig with status :=
          { phase := Phase.complete, message := msg,
            secretRef := some orig.specSecretRef,
            strategy := strat.blobStorage, provider := p.name } }
        if env.statusUpdateOk then
          { events := [.createCalled p.name, .secretWritten p.name],
            persisted := some inst1, errored := false, requeued := true }
        else
          { events := [.createCalled p.name, .secretWritten p.name],
            persisted := some orig, errored := true, requeued := false }
      else
        { events := [.createCalled p.name, .secretWritten p.name],
          persisted := some orig, errored := true, requeued := false }

/-- The provider loop (blobstorage_controller.go lines 109-160 and the
trailing unsupported-strategy handling at lines 162-166): providers that do
not support the resolved strategy are skipped; the first supporting provider
handles the request; when none supports it the phase is set to Failed with
`unsupported deployment strategy`. -/
def reconcileLoop (env : REnv) (orig : BlobStorage) (strat : StrategyMapping) :
    List BlobStorageProvider → ROut
  | [] =>
    let r := updatePhase env orig orig Phase.failed "unsupported deployment strategy"
    { events := [], persisted := r.1, errored := true, requeued := false }
  | p :: rest =>
    if p.supports strat.blobStorage then reconcileProvider env orig strat p
    else reconcileLoop env orig strat rest

/-- `Reconcile` (blobstorage_controller.go lines 82-167): fetch the instance,
read the strategy mapping (on error: phase set to Failed and an error
returned), then run the provider loop. -/
def Reconcile (env : REnv) : ROut :=
  match env.fetch with
  | .notFound => { events := [], persisted := none, errored := false, requeued := false }
  | .getErr => { events := [], persisted := none, errored := true, requeued := false }
  | .found inst =>
    match env.strat with
    | none =>
      let r := updatePhase env inst inst Phase.failed
        "failed to read deployment type config for deployment"
      { events := [.stratRead], persisted := r.1, errored := true, requeued := false }
    | some strat =>
      let out := reconcileLoop env inst strat env.providerList
      { out with events := .stratRead :: out.events }

/-- The provider loop reduces to the body at the first supporting provider. -/
theorem reconcileLoop_eq_of_find (env : REnv) (orig : BlobStorage)
    (strat : StrategyMapping) (l : List BlobStorageProvider) (p : BlobStorageProvider)
    (h : l.find? (fun q => q.supports strat.blobStorage) = some p) :
    reconcileLoop env orig strat l = reconcileProvider env orig strat p := by
  induction l with
  | nil => simp [List.find?] at h
  | cons q rest ih =>
    cases hq : q.supports strat.blobStorage with
    | true =>
      simp only [List.find?, hq, Option.some.injEq] at h
      cases h
      simp [reconcileLoop, hq]
    | false =>
      simp only [List.find?, hq] at h
      simp only [reconcileLoop, hq, Bool.false_eq_true, if_false]
      exact ih h

/-- Under a set deletion timestamp, the provider loop only ever issues the
first supporting provider's delete call. -/
theorem reconcileLoop_deletion_events (env : REnv) (orig : BlobStorage)
    (strat : StrategyMapping) (l : List BlobStorageProvider)
    (hd : orig.deletionTimestamp.isSome = true) :
    (reconcileLoop env orig strat l).events =
      match l.find? (fun q => q.supports strat.blobStorage) with
      | none => []
      | some p => [REvent.deleteCalled p.name] := by
  induction l with
  | nil => simp [reconcileLoop, List.find?]
  | cons q rest ih =>
    cases hq : q.supports strat.blobStorage with
    | true =>
      simp only [List.find?, hq]
      simp only [reconcileLoop, hq, if_true]
      unfold reconcileProvider
      rw [hd]
      cases q.deleteOutcome <;> simp
    | false =>
      simp only [List.find?, hq]
      simp only [reconcileLoop, hq, Bool.false_eq_true, if_false]
      exact ih

/-! ## Theorems for claims C2, C3, C4, C9 -/

/-- A concrete registered provider for evaluation: the AWS blob-storage
provider supports exactly the `aws` deployment strategy. -/
def awsBlobProvider (c : CreateStorageOutcome) (d : DeleteStorageOutcome) :
    BlobStorageProvider :=
  { name := "aws-s3", supports := fun s => s == "aws", createOutcome := c, deleteOutcome := d }

/-- A concrete `BlobStorage` resource for evaluation. -/
def sampleBlob (dt : Option Nat) (ph : Phase) : BlobStorage :=
  { name := "b", ns := "n", deletionTimestamp := dt, specType := "managed",
    specSecretRef := { name := "out", ns := "n" },
    status := { phase := ph, message := "", secretRef := none,
                strategy := "", provider := "" } }

/-- Claim C2 as amended: when deletion has been requested the engine never
invokes any provider's create operation, and once the strategy read succeeds
and a supporting provider is found, that provider's delete is invoked
regardless of the current phase; strategy resolution still runs first, and
its failure prevents entering the deletion protocol. -/
theorem Reconcile_deletion_never_creates
    (env : REnv) (inst : BlobStorage) (pn : String)
    (hf : env.fetch = .found inst)
    (hd : inst.deletionTimestamp.isSome = true) :
    REvent.createCalled pn ∉ (Reconcile env).events ∧
    (∀ s p, env.strat = some s →
      env.providerList.find? (fun q => q.supports s.blobStorage) = some p →
      REvent.deleteCalled p.name ∈ (Reconcile env).events) := by
  constructor
  · unfold Reconcile
    rw [hf]
    cases hs : env.strat with
    | none => simp
    | some s =>
      simp only [List.mem_cons]
      rw [reconcileLoop_deletion_events env inst s env.providerList hd]
      cases hfind : env.providerList.find? (fun q => q.supports s.blobStorage) with
      | none => simp
      | some p => simp
  · intro s p hs hp
    unfold Reconcile
    rw [hf, hs]
    simp only [List.mem_cons]
    rw [reconcileLoop_deletion_events env inst s env.providerList hd, hp]
    simp

/-- Claim C2 (counterexample to the stated precedence): with deletion
requested but the strategy read failing, the reconciliation performs the
strategy read, never invokes the deletion protocol (no delete call is
issued), and sets the phase to Failed — so deletion does not take precedence
over strategy resolution. -/
theorem Reconcile_deletion_precedence_counterexample :
    (sampleBlob (some 0) Phase.inProgress).deletionTimestamp.isSome = true ∧
    (Reconcile (REnv.mk (.found (sampleBlob (some 0) Phase.inProgress)) none
        [awsBlobProvider (.progress "m") (.ok "d")] true true)).events
      = [REvent.stratRead] ∧
    ((Reconcile (REnv.mk (.found (sampleBlob (some 0) Phase.inProgress)) none
        [awsBlobProvider (.progress "m") (.ok "d")] true true)).persisted.map
      (fun b => b.status.phase)) = some Phase.failed :=
  ⟨rfl, rfl, rfl⟩

/-- Witness for the amended C2 at a concrete input. -/
theorem Reconcile_deletion_never_creates_witness :
    REvent.createCalled "aws-s3" ∉
      (Reconcile (REnv.mk (.found (sampleBlob (some 0) Phase.inProgress))
        (some { blobStorage := "aws" })
        [awsBlobProvider (.progress "m") (.ok "d")] true true)).events ∧
    (∀ s p, (REnv.mk (.found (sampleBlob (some 0) Phase.inProgress))
        (some { blobStorage := "aws" })
        [awsBlobProvider (.progress "m") (.ok "d")] true true).strat = some s →
      (REnv.mk (.found (sampleBlob (some 0) Phase.inProgress))
        (some { blobStorage := "aws" })
        [awsBlobProvider (.progress "m") (.ok "d")] true true).providerList.find?
          (fun q => q.supports s.blobStorage) = some p →
      REvent.deleteCalled p.name ∈
        (Reconcile (REnv.mk (.found (sampleBlob (some 0) Phase.inProgress))
          (some { blobStorage := "aws" })
          [awsBlobProvider (.progress "m") (.ok "d")] true true)).events) :=
  Reconcile_deletion_never_creates
    (REnv.mk (.found (sampleBlob (some 0) Phase.inProgress))
      (some { blobStorage := "aws" })
      [awsBlobProvider (.progress "m") (.ok "d")] true true)
    (sampleBlob (some 0) Phase.inProgress) "aws-s3" rfl rfl

/-- Claim C3 as amended: the phase transitions to Complete only on
reconciliations where the output secret write succeeded; when the write
fails, the reconciliation returns an error and leaves the persisted instance
unchanged (in particular the phase is not set to Failed). -/
theorem Reconcile_complete_only_with_secret_write
    (env : REnv) (inst : BlobStorage) (s : StrategyMapping) (p : BlobStorageProvider)
    (bsi : BlobStorageInstanceData) (msg : String)
    (hf : env.fetch = .found inst) (hs : env.strat = some s)
    (hd : inst.deletionTimestamp = none)
    (hp : env.providerList.find? (fun q => q.supports s.blobStorage) = some p)
    (hc : p.createOutcome = .ok bsi msg) :
    (env.secretWriteOk = false →
      (Reconcile env).errored = true ∧ (Reconcile env).persisted = some inst) ∧
    (∀ r, (Reconcile env).persisted = some r → r.status.phase = Phase.complete →
      inst.status.phase = Phase.complete ∨
        (env.secretWriteOk = true ∧ env.statusUpdateOk = true)) := by
  have hrw : Reconcile env =
      { reconcileProvider env inst s p with
        events := .stratRead :: (reconcileProvider env inst s p).events } := by
    simp [Reconcile, hf, hs, reconcileLoop_eq_of_find env inst s env.providerList p hp]
  constructor
  · intro hw
    rw [hrw]
    simp [reconcileProvider, hd, hc, hw]
  · intro r hr hphase
    by_cases hw : env.secretWriteOk
    · by_cases hu : env.statusUpdateOk
      · exact Or.inr ⟨hw, hu⟩
      · rw [hrw] at hr
        simp [reconcileProvider, hd, hc, hw, hu] at hr
        exact Or.inl (by rw [hr]; exact hphase)
    · rw [hrw] at hr
      simp [reconcileProvider, hd, hc, eq_false_intro hw] at hr
      exact Or.inl (by rw [hr]; exact hphase)

/-- Claim C3 (counterexample to the stated rollback): a reconciliation whose
provider create succeeds but whose output secret write fails returns an error
and leaves the persisted phase at its previous value `InProgress`; the phase
is not set to Failed. -/
theorem Reconcile_secret_write_failure_counterexample :
    (Reconcile (REnv.mk (.found (sampleBlob none Phase.inProgress))
        (some { blobStorage := "aws" })
        [awsBlobProvider (.ok { data := [] } "created") (.ok "d")] false true)).errored
      = true ∧
    (Reconcile (REnv.mk (.found (sampleBlob none Phase.inProgress))
        (some { blobStorage := "aws" })
        [awsBlobProvider (.ok { data := [] } "created") (.ok "d")] false true)).persisted
      = some (sampleBlob none Phase.inProgress) ∧
    (sampleBlob none Phase.inProgress).status.phase = Phase.inProgress ∧
    Phase.inProgress ≠ Phase.failed := by
  decide

/-- Witness for the amended C3 at a concrete input with a failing secret
write. -/
theorem Reconcile_complete_only_with_secret_write_witness :
    ((REnv.mk (.found (sampleBlob none Phase.inProgress))
        (some { blobStorage := "aws" })
        [awsBlobProvider (.ok { data := [] } "created") (.ok "d")] false
        true).secretWriteOk = false →
      (Reconcile (REnv.mk (.found (sampleBlob none Phase.inProgress))
          (some { blobStorage := "aws" })
          [awsBlobProvider (.ok { data := [] } "created") (.ok "d")] false
          true)).errored = true ∧
      (Reconcile (REnv.mk (.found (sampleBlob none Phase.inProgress))
          (some { blobStorage := "aws" })
          [awsBlobProvider (.ok { data := [] } "created") (.ok "d")] false
          true)).persisted = some (sampleBlob none Phase.inProgress)) ∧
    (∀ r, (Reconcile (REnv.mk (.found (sampleBlob none Phase.inProgress))
          (some { blobStorage := "aws" })
          [awsBlobProvider (.ok { data := [] } "created") (.ok "d")] false
          true)).persisted = some r →
      r.status.phase = Phase.complete →
      (sampleBlob none Phase.inProgress).status.phase = Phase.complete ∨
        ((REnv.mk (.found (sampleBlob none Phase.inProgress))
            (some { blobStorage := "aws" })
            [awsBlobProvider (.ok { data := [] } "created") (.ok "d")] false
            true).secretWriteOk = true ∧
          (REnv.mk (.found (sampleBlob none Phase.inProgress))
            (some { blobStorage := "aws" })
            [awsBlobProvider (.ok { data := [] } "created") (.ok "d")] false
            true).statusUpdateOk = true)) :=
  Reconcile_complete_only_with_secret_write
    (REnv.mk (.found (sampleBlob none Phase.inProgress))
      (some { blobStorage := "aws" })
      [awsBlobProvider (.ok { data := [] } "created") (.ok "d")] false true)
    (sampleBlob none Phase.inProgress) { blobStorage := "aws" }
    (awsBlobProvider (.ok { data := [] } "created") (.ok "d"))
    { data := [] } "created" rfl rfl rfl rfl rfl

/-- Claim C4 as amended: when the strategy-configuration read returns an
error, the reconciliation sets the phase to Failed with the message
`failed to read deployment type config for deployment` and returns an error
(so the request is retried); the phase is not left unchanged. -/
theorem Reconcile_strat_error_sets_failed
    (env : REnv) (inst : BlobStorage)
    (hf : env.fetch = .found inst) (hs : env.strat = none)
    (hu : env.statusUpdateOk = true) :
    (Reconcile env).errored = true ∧
    (Reconcile env).persisted = some { inst with status :=
      { inst.status with
          phase := Phase.failed,
          message := "failed to read deployment type config for deployment" } } := by
  simp [Reconcile, hf, hs, updatePhase, hu]

/-- Claim C4 (counterexample as stated): on a strategy-read error the
persisted phase changes from Pending to Failed, so the phase is neither left
unchanged nor kept away from Failed. -/
theorem Reconcile_strat_error_counterexample :
    ((Reconcile (REnv.mk (.found (sampleBlob none Phase.pending)) none
        [awsBlobProvider (.progress "m") (.ok "d")] true true)).persisted.map
      (fun b => b.status.phase)) = some Phase.failed ∧
    (sampleBlob none Phase.pending).status.phase = Phase.pending ∧
    Phase.pending ≠ Phase.failed := by
  decide

/-- Witness for the amended C4 at a concrete input. -/
theorem Reconcile_strat_error_sets_failed_witness :
    (Reconcile (REnv.mk (.found (sampleBlob none Phase.pending)) none
        [awsBlobProvider (.progress "m") (.ok "d")] true true)).errored = true ∧
    (Reconcile (REnv.mk (.found (sampleBlob none Phase.pending)) none
        [awsBlobProvider (.progress "m") (.ok "d")] true true)).persisted
      = some { sampleBlob none Phase.pending with status :=
        { (sampleBlob none Phase.pending).status with
            phase := Phase.failed,
            message := "failed to read deployment type config for deployment" } } :=
  Reconcile_strat_error_sets_failed
    (REnv.mk (.found (sampleBlob none Phase.pending)) none
      [awsBlobProvider (.progress "m") (.ok "d")] true true)
    (sampleBlob none Phase.pending) rfl rfl rfl

/-- Claim C9: when the bound provider's create operation returns an error,
the reconciliation sets the phase to Failed with the provider's message and
clears the status secret reference to the empty reference, and returns an
error. -/
theorem Reconcile_create_error_clears_secret
    (env : REnv) (inst : BlobStorage) (s : StrategyMapping) (p : BlobStorageProvider)
    (msg : String)
    (hf : env.fetch = .found inst) (hs : env.strat = some s)
    (hd : inst.deletionTimestamp = none)
    (hp : env.providerList.find? (fun q => q.supports s.blobStorage) = some p)
    (hc : p.createOutcome = .err msg)
    (hu : env.statusUpdateOk = true) :
    (Reconcile env).errored = true ∧
    (Reconcile env).persisted = some { inst with status :=
      { inst.status with
          phase := Phase.failed,
          message := msg,
          secretRef := some emptySecretRef } } := by
  simp [Reconcile, hf, hs, reconcileLoop_eq_of_find env inst s env.providerList p hp,
    reconcileProvider, hd, hc, updatePhase, hu]

/-- Witness for C9 at a concrete input: a previously Complete request with a
published secret reference moves to Failed with the secret reference
cleared. -/
theorem Reconcile_create_error_clears_secret_witness :
    (Reconcile (REnv.mk (.found (sampleBlob none Phase.complete))
        (some { blobStorage := "aws" })
        [awsBlobProvider (.err "creation failed") (.ok "d")] true true)).errored
      = true ∧
    (Reconcile (REnv.mk (.found (sampleBlob none Phase.complete))
        (some { blobStorage := "aws" })
        [awsBlobProvider (.err "creation failed") (.ok "d")] true true)).persisted
      = some { sampleBlob none Phase.complete with status :=
        { (sampleBlob none Phase.complete).status with
            phase := Phase.failed,
            message := "creation failed",
            secretRef := some emptySecretRef } } :=
  Reconcile_create_error_clears_secret
    (REnv.mk (.found (sampleBlob none Phase.complete))
      (some { blobStorage := "aws" })
      [awsBlobProvider (.err "creation failed") (.ok "d")] true true)
    (sampleBlob none Phase.complete) { blobStorage := "aws" }
    (awsBlobProvider (.err "creation failed") (.ok "d")) "creation failed"
    rfl rfl rfl rfl rfl rfl

end CloudResourceOperator
